import Mathlib

/-!
Shallow embedding of the dxCompiler auxiliary tooling (the dxcint integration
test harness and the cwl_runner output formatter) and proofs about its
dependency resolver, test registration factory, output formatter, and the
extern-expected-output setup step.

External effects (filesystem existence, downloads, subprocess exit codes,
platform file contents) are modelled explicitly: the filesystem is a list of
existing paths, a download oracle gives the exit code of each fetch, and the
remote platform is a partial map from file ids to byte contents.  Python
exceptions are values of an explicit error type and fallible code returns
`Except`.
-/

namespace DxCompiler

/-- Python exception values raised by the embedded code.
`calledProcessError` carries the command, return code and the (optional)
captured stdout/stderr, mirroring `subprocess.CalledProcessError`;
`subprocess.check_call` does not capture output, so those fields are `none`
when it is the raiser. -/
inductive PyError
  | calledProcessError (cmd : List String) (returncode : Int)
      (stdout stderr : Option String)
  | dependencyError (msg : String)
  | registeredTestError (msg : String)
  | typeError (msg : String)
  | stopIteration
deriving DecidableEq

/-- Python `str.endswith`: the suffix test on the underlying character
sequence. -/
def py_endswith (s suffix : String) : Bool :=
  List.isSuffixOf suffix.data s.data

/-! ## Dependency resolver (`dxcint/Dependency.py`) -/

namespace Dependency

/-- The configuration document fields that `Dependency._get_exec` and
`Dependency.update_dot_env` read (`name`, `version`, `source_link`), plus the
resolved dependencies root directory. -/
structure DepConfig where
  root : String
  name : String
  version : String
  source_link : String
deriving DecidableEq

/-- The deterministic local path `os.path.join(root, name, version, name)`. -/
def local_dependency_dir (c : DepConfig) : String :=
  c.root ++ "/" ++ c.name ++ "/" ++ c.version ++ "/" ++ c.name

/-- Oracle for the external `wget` download command: exit code of
`wget <link> -O <path>`.  Exit code 0 is success. -/
structure DownloadEnv where
  wgetExit : String → String → Int

/-- Result of one `Dependency._get_exec` run: the filesystem after the call
(the list of existing paths), the download commands issued, the `(path, mode)`
chmod calls made, the values printed (the exception attributes `e.stdout` and
`e.stderr`), and the returned path or raised exception. -/
structure GetExecOut where
  fs : List String
  downloads : List (List String)
  chmods : List (String × Nat)
  printed : List (Option String)
  result : Except PyError String

/-- `Dependency._get_exec`: if `<root>/<name>/<version>/<name>` exists return
it; otherwise `os.makedirs` that full path (so it exists from now on), run
`wget <source_link> -O <path>`, and on a non-zero exit print `e.stdout` and
`e.stderr` (both `None`: `check_call` captures nothing) and re-raise the
`CalledProcessError`; on success `os.chmod(path, 0o775)` and return the
path. -/
def _get_exec (env : DownloadEnv) (c : DepConfig) (fs : List String) :
    GetExecOut :=
  let d := local_dependency_dir c
  if fs.contains d then
    { fs := fs, downloads := [], chmods := [], printed := [], result := .ok d }
  else
    let fs2 := d :: fs
    let cmd := ["wget", c.source_link, "-O", d]
    let code := env.wgetExit c.source_link d
    if code = 0 then
      { fs := fs2, downloads := [cmd], chmods := [(d, 0o775)], printed := [],
        result := .ok d }
    else
      { fs := fs2, downloads := [cmd], chmods := [], printed := [none, none],
        result := .error (.calledProcessError cmd code none none) }

/-- The f-string message of the `DependencyError` raised by
`update_dot_env`. -/
def dot_env_error_message (home_dir : String) : String :=
  "Dependency._update_dot_env(): provided home dir does not end with `home/dnanexus` - .env file will not have a desired effect on the platform. Provided path `"
    ++ home_dir ++ "`"

/-- `Dependency.update_dot_env`: reject a home dir not ending in
`home/dnanexus` with a `DependencyError` and no write; otherwise append
`NAME=VERSION` to `<home_dir>/.env`.  The first component is the list of
`(file, appended content)` write effects. -/
def update_dot_env (c : DepConfig) (home_dir : String) :
    List (String × String) × Except PyError Bool :=
  if py_endswith home_dir "home/dnanexus" then
    ([(home_dir ++ "/.env", c.name ++ "=" ++ c.version ++ "\n")], .ok true)
  else
    ([], .error (.dependencyError (dot_env_error_message home_dir)))

/-- Recognizer for the `DependencyError` constructor. -/
def isDependencyError : PyError → Bool
  | .dependencyError _ => true
  | _ => false

/-- Did this `_get_exec` run raise a `DependencyError`? -/
def raisedDependencyError (o : GetExecOut) : Bool :=
  match o.result with
  | .error e => isDependencyError e
  | .ok _ => false

end Dependency

/-! ## Test factory (`dxcint/RegisteredTestFactory.py`) -/

namespace RegisteredTestFactory

/-- The concrete test classes that `test_type_switch` maps category labels
to. -/
inductive TestType
  | registeredTest
  | expectedFailure
  | expectedFailureMessage
  | expectedOutput
  | analysisFinished
deriving DecidableEq

/-- A constructed test object: the chosen class applied to the constructor
arguments `(src_file, category, test_name)` (the context is shared and not
modelled per-instance). -/
structure TestInstance where
  type : TestType
  src_file : String
  category : String
  test_name : String
deriving DecidableEq

/-- The `test_type_switch` dispatch dict of `register_test`, in insertion
order. -/
def test_type_switch : List (String × TestType) :=
  [("mock_category", .registeredTest),
   ("expected_failure", .expectedFailure),
   ("expected_failure_message", .expectedFailureMessage),
   ("expected_output", .expectedOutput),
   ("analysis_finished", .analysisFinished)]

/-- Python `dict.get(k, None)` on an insertion-ordered association list. -/
def dict_get_type (kvs : List (String × TestType)) (k : String) :
    Option TestType :=
  (kvs.find? (fun p => p.1 == k)).map (fun p => p.2)

/-- The `str` form of `test_type_switch.keys()` interpolated into the error
message. -/
def keys_repr : String :=
  "dict_keys([" ++
    String.intercalate ", "
      (test_type_switch.map (fun p => "\x27" ++ p.1 ++ "\x27")) ++ "])"

/-- The part of the error message before the requested category. -/
def err_before_cat : String :=
  "RegisteredTestFactory.register_test(): Category "

/-- The part of the error message after the requested category; it embeds the
`dict_keys` listing of every valid category. -/
def err_after_cat : String :=
  " is not recognized. Existing categories are " ++ keys_repr ++
    ". Add new category and new test implementation as a subclass of `RegisteredTest`."

/-- The f-string error message of `register_test` for an unknown category. -/
def error_message (category : String) : String :=
  err_before_cat ++ category ++ err_after_cat

/-- `RegisteredTestFactory.register_test`: dispatch the category through
`test_type_switch`; an unknown category raises `RegisteredTestError`.  The
first component is the list of external commands issued, which is always
empty: the function only looks up the table and constructs the instance (no
remote resource is touched). -/
def register_test (src_file category test_name : String) :
    List (List String) × Except PyError TestInstance :=
  match dict_get_type test_type_switch category with
  | some t => ([], .ok ⟨t, src_file, category, test_name⟩)
  | none => ([], .error (.registeredTestError (error_message category)))

end RegisteredTestFactory

/-! ## Output formatter (`cwl_runner/dx_cwl_runner/output_utils.py`) -/

namespace OutputUtils

/-- JSON values as parsed from `dx describe <job-id> --json`: Python dicts
are insertion-ordered association lists. -/
inductive JVal
  | null
  | num (n : Int)
  | str (s : String)
  | list (xs : List JVal)
  | dict (kvs : List (String × JVal))

/-- Python truthiness of a JSON value (`if outputs:`). -/
def truthy : JVal → Bool
  | .null => false
  | .num n => n != 0
  | .str s => s != ""
  | .list xs => !xs.isEmpty
  | .dict kvs => !kvs.isEmpty

/-- Python `dict.get(k)` on an insertion-ordered association list. -/
def dict_get (kvs : List (String × JVal)) (k : String) : Option JVal :=
  (kvs.find? (fun p => p.1 == k)).map (fun p => p.2)

/-- Python `d[k] = v`: replace the value in place if the key is present,
otherwise append the binding, preserving insertion order. -/
def dict_set (kvs : List (String × JVal)) (k : String) (v : JVal) :
    List (String × JVal) :=
  if (kvs.find? (fun p => p.1 == k)).isSome then
    kvs.map (fun p => if p.1 == k then (k, v) else p)
  else
    kvs ++ [(k, v)]

/-- The external collaborators of the formatter.  `fileStore` is the
platform: the bytes of each file id (`none` when the download command fails).
`get_file_name` is `dx.get_file_name(outdir, file_id)` and `checksum` is
`utils.get_checksum` — both are repository code that only this module calls;
modelled from the spec: the download target is a deterministic path inside
`outdir` derived from the file, and the checksum is a function of the
downloaded bytes. -/
structure DxEnv where
  fileStore : String → Option (List Nat)
  get_file_name : String → String → String
  checksum : List Nat → String

/-- `get_modified_output`: take the first value of the file-reference dict as
the file id (`next(iter(output.values()))`, raising `StopIteration` on an
empty dict), `dx download` it to `dx.get_file_name(outdir, file_id)` (a
failing download raises `CalledProcessError`), and return the
`class/checksum/location/size` File descriptor.  A non-string first value
makes the interpolated `dx download` command fail; that is modelled as the
same `CalledProcessError`. -/
def get_modified_output (env : DxEnv) (output : List (String × JVal))
    (outdir : String) : Except PyError JVal :=
  match output.head? with
  | none => .error .stopIteration
  | some p =>
    match p.2 with
    | .str file_id =>
      match env.fileStore file_id with
      | none => .error (.calledProcessError
          ["dx", "download", file_id, "--output",
            env.get_file_name outdir file_id, "--no-progress"] 1 none none)
      | some bytes =>
        .ok (.dict
          [("class", .str "File"),
           ("checksum", .str (env.checksum bytes)),
           ("location", .str (env.get_file_name outdir file_id)),
           ("size", .num bytes.length)])
    | _ => .error (.calledProcessError ["dx", "download"] 1 none none)

/-- One iteration of the loop of `create_dx_output` over the `output` dict,
at key `k` with value `v`, updating the accumulated `results`:
if `v` is a list, `results[qualified] = []` and then for a non-empty list the
first loop iteration evaluates `outputs[outputs][idx]` — indexing the dict by
the dict itself — which raises `TypeError: unhashable type`; for an empty
list the loop body never runs and, since the following `if` is not an `elif`,
its `else` branch re-assigns the original (empty) list.  If `v` is a dict,
the qualified key is bound to `get_modified_output(v)`.  Anything else is
passed through verbatim. -/
def process_one (env : DxEnv) (process_file outdir : String)
    (results : List (String × JVal)) (k : String) (v : JVal) :
    Except PyError (List (String × JVal)) :=
  let qk := process_file ++ "." ++ k
  match v with
  | .list [] => .ok (dict_set (dict_set results qk (.list [])) qk (.list []))
  | .list (_ :: _) => .error (.typeError "unhashable type: \x27dict\x27")
  | .dict kvs => (get_modified_output env kvs outdir).map (dict_set results qk)
  | _ => .ok (dict_set results qk v)

/-- The loop of `create_dx_output` over the `output` dict in insertion
order; the first raised exception aborts the call. -/
def process_outputs (env : DxEnv) (process_file outdir : String)
    (outputs : List (String × JVal)) : Except PyError (List (String × JVal)) :=
  outputs.foldlM (fun r p => process_one env process_file outdir r p.1 p.2) []

/-- Python `description.get("state") == "done"`: true exactly when the state
field holds the string `done`. -/
def state_is_done (st : Option JVal) : Bool :=
  match st with
  | some (.str s) => s == "done"
  | _ => false

/-- `create_dx_output`: describe the job (the parsed description dict is the
`description` argument), and only when `description.get("state") == "done"`
and `description.get("output")` is truthy walk the outputs.  The wire format
of `dx describe` makes a present `output` field a JSON object; a truthy
non-dict `output` value does not occur there and iterating it is modelled
coarsely as a `TypeError`. -/
def create_dx_output (env : DxEnv) (description : List (String × JVal))
    (process_file outdir : String) : Except PyError (List (String × JVal)) :=
  let outputs := dict_get description "output"
  if state_is_done (dict_get description "state") then
    match outputs with
    | none => .ok []
    | some v =>
      if truthy v then
        match v with
        | .dict kvs => process_outputs env process_file outdir kvs
        | _ => .error (.typeError "output value is not iterable as a dict")
      else .ok []
  else .ok []

/-- A concrete environment for closed instances: every file id downloads to
the two bytes `[104, 105]`, target paths are `<outdir>/<file-id>`, and the
checksum of a byte list is `chk` followed by its length. -/
def sampleEnv : DxEnv :=
  ⟨fun _ => some [104, 105],
   fun outdir fid => outdir ++ "/" ++ fid,
   fun bytes => "chk" ++ toString bytes.length⟩

end OutputUtils

/-! ## Extern test setup (`dxcint/testclasses/ExternExpectedOutput.py`) -/

namespace ExternExpectedOutput

/-- Python path-like values as handed to `os.path` and `subprocess`:
either a string or a tuple of strings. -/
inductive PyVal
  | str (s : String)
  | tuple (xs : List String)
deriving DecidableEq

/-- `self._extern_path` as assigned in `__init__`: the trailing comma after
`os.path.join(...)` makes the attribute a 1-element tuple, not a path
string. -/
def extern_path (repo_root_dir : String) : PyVal :=
  .tuple [repo_root_dir ++ "/" ++
    "dxcint/resources/extern_expected_output/dx_extern.wdl"]

/-- `os.path.exists`: `os.stat` raises `TypeError` for a tuple argument, and
`exists` only swallows `OSError` and `ValueError`, so the `TypeError`
escapes. -/
def os_path_exists (p : PyVal) (fs : List String) : Except PyError Bool :=
  match p with
  | .str s => .ok (fs.contains s)
  | .tuple _ => .error (.typeError
      "argument should be a str or an os.PathLike object, not tuple")

/-- The state shared by all callers through one execution context: the local
filesystem, the applets present in the remote build folder, and how many
`dx build` and dxni-generation subprocesses have been launched. -/
structure SharedState where
  fs : List String
  applets : List String
  buildCount : Nat
  dxniCount : Nat
deriving DecidableEq

/-- The native applet names of `_native_call_setup`. -/
def native_applets : List String :=
  ["native_concat", "native_diff", "native_mk_list", "native_sum",
   "native_sum_012"]

/-- The `dx build` loop of `_native_call_setup`: build each applet that
`find_data_objects` does not find in the remote folder. -/
def build_missing_applets (s : SharedState) : SharedState :=
  native_applets.foldl
    (fun acc napl =>
      if acc.applets.contains napl then acc
      else { acc with applets := acc.applets ++ [napl],
                      buildCount := acc.buildCount + 1 })
    s

/-- `native_call_dxni`: launch the compiler jar with
`-output self._extern_path`.  The command line embeds the tuple-valued
`_extern_path`, and `subprocess` rejects a non-string argument with a
`TypeError` before launching, so with the tuple the generation subprocess
does not run; with a string path it runs once and creates the file. -/
def native_call_dxni (repo_root_dir : String) (s : SharedState) :
    SharedState × Except PyError Unit :=
  match extern_path repo_root_dir with
  | .str p =>
    ({ s with fs := s.fs ++ [p], dxniCount := s.dxniCount + 1 }, .ok ())
  | .tuple _ =>
    (s, .error (.typeError
      "expected str, bytes or os.PathLike object, not tuple"))

/-- `_native_call_setup`: build the missing native applets, then generate the
extern interface file. -/
def _native_call_setup (repo_root_dir : String) (s : SharedState) :
    SharedState × Except PyError Unit :=
  native_call_dxni repo_root_dir (build_missing_applets s)

/-- The body of the `with self.context.lock:` block of
`_compile_executable`: check `os.path.exists(self._extern_path)` and run the
one-time setup when the file is missing.  The context lock makes this
check-then-create sequence atomic between callers. -/
def locked_setup (repo_root_dir : String) (s : SharedState) :
    SharedState × Except PyError Unit :=
  match os_path_exists (extern_path repo_root_dir) s.fs with
  | .error e => (s, .error e)
  | .ok true => (s, .ok ())
  | .ok false => _native_call_setup repo_root_dir s

/-- The per-instance attribute the exception handler assigns:
`self._test_results = {False, "Error creating extern"}` (a two-element set in
the source, modelled as the pair). -/
structure InstanceState where
  test_results : Option (Bool × String)
deriving DecidableEq

/-- The assignment performed by the `except Exception` handler. -/
def set_error_results (t : InstanceState) : InstanceState :=
  { t with test_results := some (false, "Error creating extern") }

/-- The `try ... except Exception: self._test_results = ...` wrapper of
`_compile_executable`, followed unconditionally by
`return super()._compile_executable(*args, **kwargs)`. -/
def try_except_compile {α : Type}
    (body : SharedState → SharedState × Except PyError Unit)
    (superCompile : SharedState → InstanceState → α)
    (s : SharedState) (t : InstanceState) : α :=
  match body s with
  | (s2, .ok _) => superCompile s2 t
  | (s2, .error _) => superCompile s2 (set_error_results t)

/-- `ExternExpectedOutput._compile_executable`: the lock-guarded setup under
the broad exception handler, then the inherited `ExpectedOutput` compile. -/
def _compile_executable {α : Type} (repo_root_dir : String)
    (superCompile : SharedState → InstanceState → α)
    (s : SharedState) (t : InstanceState) : α :=
  try_except_compile (locked_setup repo_root_dir) superCompile s t

/-- A run of several callers through `_compile_executable`.  Each caller
touches the shared state only inside the context-lock-guarded block, so any
concurrent execution is serialized into some order of atomic `locked_setup`
critical sections; the fold realizes that serialization (the callers are
identical, so the order is immaterial). -/
def run_callers (repo_root_dir : String) (callers : List Nat)
    (s : SharedState) : SharedState :=
  callers.foldl (fun acc _ => (locked_setup repo_root_dir acc).1) s

end ExternExpectedOutput

end DxCompiler

namespace DxCompiler

namespace Dependency

/-- When the local dependency path already exists, `_get_exec` returns it
unchanged with no download, no chmod and no printing. -/
lemma _get_exec_of_exists (env : DownloadEnv) (c : DepConfig)
    (fs : List String) (h : fs.contains (local_dependency_dir c) = true) :
    _get_exec env c fs =
      { fs := fs, downloads := [], chmods := [], printed := [],
        result := .ok (local_dependency_dir c) } := by
  simp only [_get_exec, h]
  rfl

/-- After any `_get_exec` run the local dependency path exists (either it
already did, or `os.makedirs` created it before the download was attempted). -/
lemma _get_exec_fs_contains (env : DownloadEnv) (c : DepConfig)
    (fs : List String) :
    (_get_exec env c fs).fs.contains (local_dependency_dir c) = true := by
  cases hb : fs.contains (local_dependency_dir c)
  · simp only [_get_exec, hb]
    split
    · simp_all
    · split <;> simp
  · rw [_get_exec_of_exists env c fs hb]; exact hb

/-- When the local path is absent and the download command exits non-zero,
`_get_exec` leaves the `os.makedirs`-created path on disk, prints the
(uncaptured, hence `None`) stdout and stderr attributes and re-raises the
`CalledProcessError`. -/
lemma _get_exec_download_fails (env : DownloadEnv) (c : DepConfig)
    (fs : List String) (h1 : fs.contains (local_dependency_dir c) = false)
    (h2 : env.wgetExit c.source_link (local_dependency_dir c) ≠ 0) :
    _get_exec env c fs =
      { fs := local_dependency_dir c :: fs,
        downloads := [["wget", c.source_link, "-O", local_dependency_dir c]],
        chmods := [],
        printed := [none, none],
        result := .error (.calledProcessError
          ["wget", c.source_link, "-O", local_dependency_dir c]
          (env.wgetExit c.source_link (local_dependency_dir c)) none none) } := by
  have h1m : local_dependency_dir c ∉ fs := by simpa using h1
  simp [_get_exec, h1, h2, h1m]

/-- Any path returned by `_get_exec` is the deterministic local dependency
path. -/
lemma _get_exec_result_ok (env : DownloadEnv) (c : DepConfig)
    (fs : List String) (p : String)
    (h : (_get_exec env c fs).result = .ok p) :
    p = local_dependency_dir c := by
  cases hb : fs.contains (local_dependency_dir c)
  · simp only [_get_exec, hb] at h
    split at h
    · simp_all
    · split at h <;> simp_all
  · rw [_get_exec_of_exists env c fs hb] at h
    simp_all

end Dependency

open Dependency

/-- C1: if the local path already exists, `_get_exec` returns it without
issuing any download command; and after any first resolve, a second resolve
with the same configuration issues no download and returns the deterministic
path, which is also the path returned by any successful first resolve. -/
theorem C1_dependency_resolution_idempotent (env : DownloadEnv) (c : DepConfig)
    (fs : List String) :
    (fs.contains (local_dependency_dir c) = true →
      _get_exec env c fs =
        { fs := fs, downloads := [], chmods := [], printed := [],
          result := .ok (local_dependency_dir c) }) ∧
    _get_exec env c (_get_exec env c fs).fs =
      { fs := (_get_exec env c fs).fs, downloads := [], chmods := [],
        printed := [], result := .ok (local_dependency_dir c) } ∧
    (∀ p, (_get_exec env c fs).result = .ok p →
      p = local_dependency_dir c) := by
  refine ⟨fun h => _get_exec_of_exists env c fs h, ?_, ?_⟩
  · exact _get_exec_of_exists env c _ (_get_exec_fs_contains env c fs)
  · exact fun p hp => _get_exec_result_ok env c fs p hp

/-- Closed instance of C1: with the path already present the resolver returns
it with no download. -/
theorem C1_dependency_resolution_idempotent_witness :
    ([(("/r/dxc/1.0/dxc") : String)].contains
        (local_dependency_dir ⟨"/r", "dxc", "1.0", "u"⟩) = true) ∧
    _get_exec ⟨fun _ _ => 0⟩ ⟨"/r", "dxc", "1.0", "u"⟩ ["/r/dxc/1.0/dxc"] =
      { fs := ["/r/dxc/1.0/dxc"], downloads := [], chmods := [], printed := [],
        result := .ok "/r/dxc/1.0/dxc" } := by
  refine ⟨by decide, ?_⟩
  exact (C1_dependency_resolution_idempotent ⟨fun _ _ => 0⟩
    ⟨"/r", "dxc", "1.0", "u"⟩ ["/r/dxc/1.0/dxc"]).1 (by decide)

open RegisteredTestFactory

set_option maxRecDepth 8192 in
/-- C4: for every category string absent from the switch table,
`register_test` raises a `RegisteredTestError` with no external command
issued, and the error text is the requested category between a fixed prefix
and a fixed suffix, where the suffix embeds every valid category name. -/
theorem C4_unknown_category_fails (src_file category test_name : String)
    (h : dict_get_type test_type_switch category = none) :
    register_test src_file category test_name =
      ([], .error (.registeredTestError
        (err_before_cat ++ category ++ err_after_cat))) ∧
    (∀ k ∈ test_type_switch.map (fun p => p.1),
      ∃ a b, err_after_cat = a ++ k ++ b) := by
  constructor
  · simp [register_test, h, error_message]
  · intro k hk
    simp [test_type_switch] at hk
    rcases hk with h1 | h1 | h1 | h1 | h1 <;> subst h1
    · exact ⟨" is not recognized. Existing categories are dict_keys([\x27",
        "\x27, \x27expected_failure\x27, \x27expected_failure_message\x27, \x27expected_output\x27, \x27analysis_finished\x27]). Add new category and new test implementation as a subclass of `RegisteredTest`.",
        by decide⟩
    · exact ⟨" is not recognized. Existing categories are dict_keys([\x27mock_category\x27, \x27",
        "\x27, \x27expected_failure_message\x27, \x27expected_output\x27, \x27analysis_finished\x27]). Add new category and new test implementation as a subclass of `RegisteredTest`.",
        by decide⟩
    · exact ⟨" is not recognized. Existing categories are dict_keys([\x27mock_category\x27, \x27expected_failure\x27, \x27",
        "\x27, \x27expected_output\x27, \x27analysis_finished\x27]). Add new category and new test implementation as a subclass of `RegisteredTest`.",
        by decide⟩
    · exact ⟨" is not recognized. Existing categories are dict_keys([\x27mock_category\x27, \x27expected_failure\x27, \x27expected_failure_message\x27, \x27",
        "\x27, \x27analysis_finished\x27]). Add new category and new test implementation as a subclass of `RegisteredTest`.",
        by decide⟩
    · exact ⟨" is not recognized. Existing categories are dict_keys([\x27mock_category\x27, \x27expected_failure\x27, \x27expected_failure_message\x27, \x27expected_output\x27, \x27",
        "\x27]). Add new category and new test implementation as a subclass of `RegisteredTest`.",
        by decide⟩

/-- Closed instance of C4: the category `bogus` is unknown and is rejected
with the `RegisteredTestError` message naming it. -/
theorem C4_unknown_category_fails_witness :
    dict_get_type test_type_switch "bogus" = none ∧
    register_test "mock.wdl" "bogus" "t" =
      ([], .error (.registeredTestError
        (err_before_cat ++ "bogus" ++ err_after_cat))) := by
  refine ⟨by decide, ?_⟩
  exact (C4_unknown_category_fails "mock.wdl" "bogus" "t" (by decide)).1

open OutputUtils

/-- Appending to a common prefix is injective on strings. -/
lemma string_append_right_inj (pf s t : String) (h : pf ++ s = pf ++ t) :
    s = t := by
  have hd := congrArg String.data h
  rw [String.data_append, String.data_append] at hd
  exact String.ext (List.append_cancel_left hd)

/-- A state field other than the string `done` fails the
`description.get("state") == "done"` test. -/
lemma state_is_done_eq_false {st : Option JVal}
    (h : st ≠ some (JVal.str "done")) : state_is_done st = false := by
  cases st with
  | none => rfl
  | some v =>
    cases v with
    | str s =>
      by_cases hs : s = "done"
      · subst hs; exact absurd rfl h
      · simp [state_is_done, hs]
    | null => rfl
    | num n => rfl
    | list xs => rfl
    | dict kvs => rfl

/-- C5: for every job description whose state field is not the string
`done`, `create_dx_output` returns the empty record, whatever the `output`
field holds. -/
theorem C5_non_done_empty_record (env : DxEnv)
    (description : List (String × JVal)) (process_file outdir : String)
    (h : dict_get description "state" ≠ some (JVal.str "done")) :
    create_dx_output env description process_file outdir = .ok [] := by
  simp only [create_dx_output, state_is_done_eq_false h]
  rfl

/-- Closed instance of C5: a failed job with a populated output map yields the
empty record. -/
theorem C5_non_done_empty_record_witness :
    dict_get [("state", JVal.str "failed"),
        ("output", JVal.dict [("a", JVal.num 1)])] "state" ≠
      some (JVal.str "done") ∧
    create_dx_output sampleEnv
      [("state", JVal.str "failed"), ("output", JVal.dict [("a", JVal.num 1)])]
      "p" "/out" = .ok [] := by
  have hne : dict_get [("state", JVal.str "failed"),
      ("output", JVal.dict [("a", JVal.num 1)])] "state" ≠
      some (JVal.str "done") := by
    intro h
    have he : dict_get [("state", JVal.str "failed"),
        ("output", JVal.dict [("a", JVal.num 1)])] "state" =
        some (JVal.str "failed") := rfl
    rw [he] at h
    injection h with h1
    injection h1 with h2
    exact absurd h2 (by decide)
  exact ⟨hne, C5_non_done_empty_record sampleEnv _ "p" "/out" hne⟩

/-- C6: a done job with outputs `a: 5` and `b` a file reference yields the
scalar verbatim under `<process>.a` and the downloaded-file descriptor
`class/checksum/location/size` under `<process>.b`. -/
theorem C6_done_scalar_and_file_outputs (env : DxEnv)
    (process_file outdir fid : String) (bytes : List Nat)
    (h : env.fileStore fid = some bytes) :
    create_dx_output env
      [("state", .str "done"),
       ("output", .dict [("a", .num 5),
          ("b", .dict [("$dnanexus_link", .str fid)])])]
      process_file outdir =
      .ok [(process_file ++ "." ++ "a", .num 5),
           (process_file ++ "." ++ "b", .dict
             [("class", .str "File"),
              ("checksum", .str (env.checksum bytes)),
              ("location", .str (env.get_file_name outdir fid)),
              ("size", .num bytes.length)])] := by
  have hne : (process_file ++ "." ++ "a" == process_file ++ "." ++ "b") =
      false := by
    refine beq_eq_false_iff_ne.mpr (fun he => ?_)
    have := string_append_right_inj (process_file ++ ".") _ _ he
    simp at this
  simp [create_dx_output, dict_get, state_is_done, truthy, process_outputs,
    process_one, get_modified_output, dict_set, h, hne, List.foldlM,
    List.find?, Except.map, bind, Except.bind, pure, Except.pure]

/-- Closed instance of C6 in the concrete environment. -/
theorem C6_done_scalar_and_file_outputs_witness :
    sampleEnv.fileStore "file-7" = some [104, 105] ∧
    create_dx_output sampleEnv
      [("state", .str "done"),
       ("output", .dict [("a", .num 5),
          ("b", .dict [("$dnanexus_link", .str "file-7")])])]
      "p" "/out" =
      .ok [("p" ++ "." ++ "a", .num 5),
           ("p" ++ "." ++ "b", .dict
             [("class", .str "File"),
              ("checksum", .str (sampleEnv.checksum [104, 105])),
              ("location", .str (sampleEnv.get_file_name "/out" "file-7")),
              ("size", .num (([104, 105] : List Nat)).length)])] := by
  refine ⟨rfl, ?_⟩
  exact C6_done_scalar_and_file_outputs sampleEnv "p" "/out" "file-7"
    [104, 105] rfl

/-- C2 (code evaluated at the failing input): a done job with the single
list-typed output `xs = [one file reference]` makes `create_dx_output` raise
the `TypeError` coming from `outputs[outputs]` — the dict indexed by itself —
instead of producing the per-element transformed list. -/
theorem C2_list_output_branch_crashes :
    create_dx_output sampleEnv
      [("state", .str "done"),
       ("output", .dict
         [("xs", .list [.dict [("$dnanexus_link", .str "file-1")]])])]
      "p" "/out" = .error (.typeError "unhashable type: \x27dict\x27") := rfl

/-- C3 as stated is false: at a concrete configuration with the path absent
and the download exiting 8, `_get_exec` raises the underlying
`CalledProcessError`, not a `DependencyError`. -/
theorem C3_counterexample_not_dependency_error :
    (_get_exec ⟨fun _ _ => 8⟩ ⟨"/r", "dxc", "1.0", "http://x/dxc"⟩ []).result =
      .error (.calledProcessError ["wget", "http://x/dxc", "-O",
        "/r/dxc/1.0/dxc"] 8 none none) ∧
    raisedDependencyError
      (_get_exec ⟨fun _ _ => 8⟩ ⟨"/r", "dxc", "1.0", "http://x/dxc"⟩ []) =
      false :=
  ⟨rfl, rfl⟩

/-- C3 amended: if the local path does not exist and the fetch exits
non-zero, `_get_exec` prints the exception attributes `e.stdout` and
`e.stderr` (both `None`, since `check_call` captures nothing) and re-raises
the underlying `subprocess.CalledProcessError`. -/
theorem C3_download_failure_raises_called_process_error (env : DownloadEnv)
    (c : DepConfig) (fs : List String)
    (h1 : fs.contains (local_dependency_dir c) = false)
    (h2 : env.wgetExit c.source_link (local_dependency_dir c) ≠ 0) :
    (_get_exec env c fs).result =
      .error (.calledProcessError
        ["wget", c.source_link, "-O", local_dependency_dir c]
        (env.wgetExit c.source_link (local_dependency_dir c)) none none) ∧
    (_get_exec env c fs).printed = [none, none] := by
  rw [_get_exec_download_fails env c fs h1 h2]
  exact ⟨rfl, rfl⟩

/-- Closed instance of the amended C3. -/
theorem C3_download_failure_raises_called_process_error_witness :
    ([] : List String).contains
      (local_dependency_dir ⟨"/r", "dxc", "1.0", "http://x/dxc"⟩) = false ∧
    ((8 : Int) ≠ 0) ∧
    (_get_exec ⟨fun _ _ => 8⟩ ⟨"/r", "dxc", "1.0", "http://x/dxc"⟩ []).result =
      .error (.calledProcessError ["wget", "http://x/dxc", "-O",
        "/r/dxc/1.0/dxc"] 8 none none) := by
  refine ⟨by decide, by decide, ?_⟩
  exact (C3_download_failure_raises_called_process_error ⟨fun _ _ => 8⟩
    ⟨"/r", "dxc", "1.0", "http://x/dxc"⟩ [] (by decide) (by decide)).1

/-- C9: on a failed download the resolver is not atomic — `os.makedirs` has
already created the full target path, so the failing run raises yet leaves
the path existing, and every subsequent resolve with the same configuration
returns that path immediately with no further download attempt. -/
theorem C9_failed_download_leaves_path_resolved (env : DownloadEnv)
    (c : DepConfig) (fs : List String)
    (h1 : fs.contains (local_dependency_dir c) = false)
    (h2 : env.wgetExit c.source_link (local_dependency_dir c) ≠ 0) :
    (_get_exec env c fs).result =
      .error (.calledProcessError
        ["wget", c.source_link, "-O", local_dependency_dir c]
        (env.wgetExit c.source_link (local_dependency_dir c)) none none) ∧
    (_get_exec env c fs).fs.contains (local_dependency_dir c) = true ∧
    _get_exec env c (_get_exec env c fs).fs =
      { fs := (_get_exec env c fs).fs, downloads := [], chmods := [],
        printed := [], result := .ok (local_dependency_dir c) } := by
  refine ⟨?_, _get_exec_fs_contains env c fs,
    _get_exec_of_exists env c _ (_get_exec_fs_contains env c fs)⟩
  rw [_get_exec_download_fails env c fs h1 h2]

/-- Closed instance of C9: after the failed download the second resolve
returns the path with no download command. -/
theorem C9_failed_download_leaves_path_resolved_witness :
    ([] : List String).contains
      (local_dependency_dir ⟨"/r", "dxc", "1.0", "http://x/dxc"⟩) = false ∧
    _get_exec ⟨fun _ _ => 8⟩ ⟨"/r", "dxc", "1.0", "http://x/dxc"⟩
        (_get_exec ⟨fun _ _ => 8⟩ ⟨"/r", "dxc", "1.0", "http://x/dxc"⟩ []).fs =
      { fs := (_get_exec ⟨fun _ _ => 8⟩
          ⟨"/r", "dxc", "1.0", "http://x/dxc"⟩ []).fs,
        downloads := [], chmods := [], printed := [],
        result := .ok "/r/dxc/1.0/dxc" } := by
  refine ⟨by decide, ?_⟩
  exact (C9_failed_download_leaves_path_resolved ⟨fun _ _ => 8⟩
    ⟨"/r", "dxc", "1.0", "http://x/dxc"⟩ [] (by decide) (by decide)).2.2

/-- C7: for every home-directory path whose string form does not end with
`home/dnanexus`, `update_dot_env` raises a `DependencyError` naming the path
and performs no write to any `.env` file. -/
theorem C7_update_dot_env_rejects_bad_home (c : DepConfig) (home_dir : String)
    (h : py_endswith home_dir "home/dnanexus" = false) :
    update_dot_env c home_dir =
      ([], .error (.dependencyError (dot_env_error_message home_dir))) := by
  simp [update_dot_env, h]

/-- Closed instance of C7 at the empty string and at a path differing from
the suffix only by a trailing separator. -/
theorem C7_update_dot_env_rejects_bad_home_witness :
    py_endswith "" "home/dnanexus" = false ∧
    py_endswith "home/dnanexus/" "home/dnanexus" = false ∧
    update_dot_env ⟨"/r", "dxc", "1.0", "u"⟩ "" =
      ([], .error (.dependencyError (dot_env_error_message ""))) ∧
    update_dot_env ⟨"/r", "dxc", "1.0", "u"⟩ "home/dnanexus/" =
      ([], .error (.dependencyError (dot_env_error_message "home/dnanexus/"))) :=
  ⟨by decide, by decide,
   C7_update_dot_env_rejects_bad_home ⟨"/r", "dxc", "1.0", "u"⟩ "" (by decide),
   C7_update_dot_env_rejects_bad_home ⟨"/r", "dxc", "1.0", "u"⟩
     "home/dnanexus/" (by decide)⟩

open ExternExpectedOutput

/-- C8: whenever the lock-guarded setup body raises any exception,
`_compile_executable`-shaped code catches it, records the error marker in
`_test_results`, and still invokes the inherited compile path on the
resulting state, returning its result. -/
theorem C8_setup_exception_swallowed {α : Type}
    (body : SharedState → SharedState × Except PyError Unit)
    (superCompile : SharedState → InstanceState → α)
    (s s2 : SharedState) (t : InstanceState) (e : PyError)
    (h : body s = (s2, .error e)) :
    try_except_compile body superCompile s t =
      superCompile s2 (set_error_results t) := by
  simp [try_except_compile, h]

/-- Closed instance of C8: the real `locked_setup` body raises the
`TypeError` coming from `os.path.exists` on the tuple-valued `_extern_path`,
and `_compile_executable` still returns the inherited compile result. -/
theorem C8_setup_exception_swallowed_witness :
    locked_setup "/repo" ⟨[], [], 0, 0⟩ =
      (⟨[], [], 0, 0⟩, .error (.typeError
        "argument should be a str or an os.PathLike object, not tuple")) ∧
    _compile_executable "/repo" (fun s2 t => (s2, t)) ⟨[], [], 0, 0⟩ ⟨none⟩ =
      (⟨[], [], 0, 0⟩, set_error_results ⟨none⟩) :=
  ⟨rfl, C8_setup_exception_swallowed (locked_setup "/repo")
    (fun s2 t => (s2, t)) ⟨[], [], 0, 0⟩ ⟨[], [], 0, 0⟩ ⟨none⟩
    (.typeError "argument should be a str or an os.PathLike object, not tuple")
    rfl⟩

/-- `locked_setup` never changes the shared state: `os.path.exists` raises
on the tuple-valued `_extern_path` before the check-then-create can run. -/
lemma locked_setup_fst (repo_root_dir : String) (s : SharedState) :
    locked_setup repo_root_dir s = (s, .error (.typeError
      "argument should be a str or an os.PathLike object, not tuple")) := rfl

/-- C10 (code evaluated at the failing scenario): for any number of callers
serialized by the context lock, in any order, and from any starting shared
state, the one-time extern setup changes nothing — in particular zero `dx
build` and zero dxni-generation invocations occur, not exactly one: the
existence check raises a `TypeError` on the tuple-valued `_extern_path`
before any build or generation can happen, every time. -/
theorem C10_extern_setup_never_generates (repo_root_dir : String)
    (callers : List Nat) (s : SharedState) :
    run_callers repo_root_dir callers s = s := by
  induction callers generalizing s with
  | nil => rfl
  | cons c cs ih =>
    show run_callers repo_root_dir cs
      (locked_setup repo_root_dir s).1 = s
    rw [locked_setup_fst]
    exact ih s

end DxCompiler
